import Mathlib

/-!
Shallow embedding of the FastAPI text-to-speech starter (`src/app.py`) and
verification of its specification claims.

Modelling conventions:
* Time (`time.time()`) is an explicit natural-number parameter `now`.
  Where the source samples the clock more than once inside a single
  operation (e.g. `get_session` calls `time.time()` twice when building the
  JWT payload), the operation is modelled at a single instant.
* The in-memory nonce dictionary `session_nonces : dict[str, float]` is an
  association list `List (String × Nat)` with unique keys (Python dict keys
  are unique); `eraseNonce` removes every binding of a key, which coincides
  with `dict.pop` on unique-key stores.
* HTTP header values and JWT tokens are byte lists (`List Nat`); the
  serialized JWT is abstracted as three symbols `[iat, exp, mac]`, and
  HMAC-SHA256 is modelled as a perfect MAC `macVal`, injective in the
  secret and in both payload claims (real-world collision probability is
  negligible and not modelled).
* Raising `HTTPException` is modelled as returning `Except.error` of the
  uniform error envelope, after applying the app-level
  `http_exception_handler`: a dict detail containing "error" passes
  through; a plain-string detail becomes a `SynthesisError`/
  `SYNTHESIS_FAILED` envelope carrying `str(detail)`.
-/

/-- The uniform error envelope `{"error": {"type", "code", "message"}}`,
together with the HTTP status code it is returned with. -/
structure ApiError where
  status : Nat
  errorType : String
  code : String
  message : String
  deriving DecidableEq

/-- `NONCE_TTL = 5 * 60` from `app.py`. -/
def NONCE_TTL : Nat := 5 * 60

/-- `JWT_EXPIRY = 3600` from `app.py`. -/
def JWT_EXPIRY : Nat := 3600

/-- The global `session_nonces` dictionary: nonce → expiry timestamp. -/
abbrev NonceStore := List (String × Nat)

/-- Dictionary lookup `session_nonces.get(nonce)`. -/
def lookupNonce : NonceStore → String → Option Nat
  | [], _ => none
  | (k, v) :: rest, n => if k = n then some v else lookupNonce rest n

/-- Dictionary key removal (the mutation part of `session_nonces.pop(nonce)`
and of `del session_nonces[k]`). -/
def eraseNonce : NonceStore → String → NonceStore
  | [], _ => []
  | (k, v) :: rest, n => if k = n then eraseNonce rest n else (k, v) :: eraseNonce rest n

/-- `generate_nonce()`: stores the (freshly drawn, here parameter) nonce with
expiry `now + NONCE_TTL` and returns it.  Dict assignment overwrites any
existing binding of the key. -/
def generate_nonce (store : NonceStore) (nonce : String) (now : Nat) : String × NonceStore :=
  (nonce, (nonce, now + NONCE_TTL) :: eraseNonce store nonce)

/-- `consume_nonce(nonce)`: `expiry = session_nonces.pop(nonce, None)`;
returns `False` when absent, else `time.time() < expiry`. -/
def consume_nonce (store : NonceStore) (nonce : String) (now : Nat) : Bool × NonceStore :=
  match lookupNonce store nonce with
  | none => (false, store)
  | some expiry => (decide (now < expiry), eraseNonce store nonce)

/-- `cleanup_nonces()`: deletes every entry with `now >= v`, i.e. keeps
exactly the entries with `now < v`. -/
def cleanup_nonces (store : NonceStore) (now : Nat) : NonceStore :=
  store.filter (fun kv => decide (now < kv.2))

theorem lookupNonce_eraseNonce_self (s : NonceStore) (n : String) :
    lookupNonce (eraseNonce s n) n = none := by
  induction s with
  | nil => rfl
  | cons kv rest ih =>
    obtain ⟨k, v⟩ := kv
    by_cases h : k = n
    · simp [eraseNonce, h, ih]
    · simp [eraseNonce, h, lookupNonce, ih]

theorem lookupNonce_eraseNonce_ne (s : NonceStore) (n k : String) (h : k ≠ n) :
    lookupNonce (eraseNonce s n) k = lookupNonce s k := by
  induction s with
  | nil => rfl
  | cons kv rest ih =>
    obtain ⟨k', v⟩ := kv
    by_cases hk : k' = n
    · subst hk
      have hne : ¬ (k' = k) := fun hkn => h (hkn ▸ rfl)
      simp [eraseNonce, lookupNonce, hne, ih]
    · simp [eraseNonce, hk, lookupNonce, ih]

/-- Injective encoding of a byte/symbol list into one natural number,
used to build the ideal MAC. -/
def listCode : List Nat → Nat
  | [] => 0
  | x :: xs => Nat.pair x (listCode xs) + 1

/-- Injective encoding of the secret string into a natural number. -/
def strCode (s : String) : Nat := listCode (s.data.map Char.toNat)

/-- Ideal model of the HS256 MAC over the JWT payload `{iat, exp}`:
injective in the secret and in both claims. -/
def macVal (secret : String) (iat expv : Nat) : Nat :=
  Nat.pair (strCode secret) (Nat.pair iat expv)

/-- `jwt.encode({"iat": now, "exp": now + JWT_EXPIRY}, SESSION_SECRET, "HS256")`:
the serialized token is abstracted as the three symbols
`[iat, exp, mac]`. -/
def jwt_encode (secret : String) (now : Nat) : List Nat :=
  [now, now + JWT_EXPIRY, macVal secret now (now + JWT_EXPIRY)]

/-- Outcome of `jwt.decode`: success, `ExpiredSignatureError`, or
`InvalidTokenError` (malformed structure or bad signature). -/
inductive DecodeOutcome
  | ok
  | expired
  | invalid
  deriving DecidableEq

/-- `jwt.decode(token, SESSION_SECRET, algorithms=["HS256"])`: PyJWT checks
the signature first (failure → `InvalidTokenError`), then the `exp` claim
with zero leeway (`exp <= now` → `ExpiredSignatureError`). -/
def jwt_decode (secret : String) (token : List Nat) (now : Nat) : DecodeOutcome :=
  match token with
  | [_iat, expv, sig] =>
    if sig = macVal secret _iat expv then
      if expv ≤ now then .expired else .ok
    else .invalid
  | _ => .invalid

theorem listCode_inj : ∀ a b : List Nat, listCode a = listCode b → a = b
  | [], [] => fun _ => rfl
  | [], _ :: _ => fun h => absurd h (by simp [listCode])
  | _ :: _, [] => fun h => absurd h (by simp [listCode])
  | x :: xs, y :: ys => fun h => by
      have h' : Nat.pair x (listCode xs) = Nat.pair y (listCode ys) :=
        Nat.succ_injective h
      obtain ⟨h1, h2⟩ := Nat.pair_eq_pair.mp h'
      rw [h1, listCode_inj xs ys h2]

theorem charToNat_inj : Function.Injective Char.toNat := by
  intro a b h
  have := congrArg Char.ofNat h
  rwa [Char.ofNat_toNat, Char.ofNat_toNat] at this

theorem strCode_inj : Function.Injective strCode := by
  intro s t h
  have hmap : s.data.map Char.toNat = t.data.map Char.toNat :=
    listCode_inj _ _ h
  exact String.ext (List.map_injective_iff.mpr charToNat_inj hmap)

theorem macVal_inj {k1 k2 : String} {i1 e1 i2 e2 : Nat}
    (h : macVal k1 i1 e1 = macVal k2 i2 e2) : k1 = k2 ∧ i1 = i2 ∧ e1 = e2 := by
  unfold macVal at h
  obtain ⟨hs, hp⟩ := Nat.pair_eq_pair.mp h
  obtain ⟨hi, he⟩ := Nat.pair_eq_pair.mp hp
  exact ⟨strCode_inj hs, hi, he⟩

/-- Bytes of the string `"Bearer "` checked by
`authorization.startswith("Bearer ")`. -/
def bearerBytes : List Nat := "Bearer ".data.map Char.toNat

/-- 401 `MISSING_TOKEN` envelope from `require_session`. -/
def missingTokenError : ApiError :=
  ⟨401, "AuthenticationError", "MISSING_TOKEN",
    "Authorization header with Bearer token is required"⟩

/-- 401 `INVALID_TOKEN` envelope for an expired session. -/
def expiredTokenError : ApiError :=
  ⟨401, "AuthenticationError", "INVALID_TOKEN",
    "Session expired, please refresh the page"⟩

/-- 401 `INVALID_TOKEN` envelope for a malformed or badly signed token. -/
def invalidTokenError : ApiError :=
  ⟨401, "AuthenticationError", "INVALID_TOKEN", "Invalid session token"⟩

/-- `require_session(authorization)`: the JWT-validation dependency.  The
source never touches `session_nonces`; the store is threaded through
unchanged so that statelessness is a checkable part of the embedding. -/
def require_session (secret : String) (authorization : Option (List Nat))
    (now : Nat) (nonces : NonceStore) : Except ApiError Unit × NonceStore :=
  match authorization with
  | none => (.error missingTokenError, nonces)
  | some a =>
    if a.isEmpty || !(List.isPrefixOf bearerBytes a) then
      (.error missingTokenError, nonces)
    else
      match jwt_decode secret (a.drop 7) now with
      | .ok => (.ok (), nonces)
      | .expired => (.error expiredTokenError, nonces)
      | .invalid => (.error invalidTokenError, nonces)

/-- 403 `INVALID_NONCE` envelope from `get_session`. -/
def invalidNonceError : ApiError :=
  ⟨403, "AuthenticationError", "INVALID_NONCE",
    "Valid session nonce required. Please refresh the page."⟩

/-- `GET /api/session` (`get_session`): when `REQUIRE_NONCE`, the
`X-Session-Nonce` header must be present, truthy and consumable; otherwise
a JWT is issued unconditionally.  Note that a failed `consume_nonce` may
still have removed an expired nonce from the store. -/
def get_session (requireNonce : Bool) (secret : String)
    (x_session_nonce : Option String) (now : Nat) (store : NonceStore) :
    Except ApiError (List Nat) × NonceStore :=
  if requireNonce then
    match x_session_nonce with
    | none => (.error invalidNonceError, store)
    | some nonce =>
      if nonce = "" then (.error invalidNonceError, store)
      else
        let r := consume_nonce store nonce now
        if r.1 then (.ok (jwt_encode secret now), r.2)
        else (.error invalidNonceError, r.2)
  else (.ok (jwt_encode secret now), store)

/-- `SESSION_SECRET = os.environ.get("SESSION_SECRET") or secrets.token_hex(32)`:
the configured secret unless unset or empty (Python falsiness), in which
case the freshly drawn random hex string (here a parameter). -/
def session_secret_of (env : Option String) (randomHex : String) : String :=
  match env with
  | some s => if s = "" then randomHex else s
  | none => randomHex

/-- `REQUIRE_NONCE = bool(os.environ.get("SESSION_SECRET"))`: true iff the
environment variable is present and non-empty. -/
def require_nonce_of (env : Option String) : Bool :=
  match env with
  | some s => !(s == "")
  | none => false

/-- Nonce injection into the served page:
`template.replace("</head>", '<meta name="session-nonce" ...>\n</head>')`. -/
def injectNonce (template nonce : String) : String :=
  template.replace "</head>"
    ("<meta name=\"session-nonce\" content=\"" ++ nonce ++ "\">\n</head>")

/-- 404 envelope for `GET /` when no frontend template is available: the
plain-string `HTTPException` detail goes through `http_exception_handler`. -/
def frontendMissingError : ApiError :=
  ⟨404, "SynthesisError", "SYNTHESIS_FAILED", "Frontend not built. Run make build first."⟩

/-- `GET /` (`serve_index`): 404 when `_index_html_template` is falsy
(absent or empty), otherwise `cleanup_nonces()` then `generate_nonce()`
and the nonce is injected into the page. -/
def serve_index (template : Option String) (nonce : String) (now : Nat)
    (store : NonceStore) : Except ApiError (String × NonceStore) :=
  match template with
  | none => .error frontendMissingError
  | some t =>
    if t = "" then .error frontendMissingError
    else
      let store1 := cleanup_nonces store now
      let r := generate_nonce store1 nonce now
      .ok (injectNonce t r.1, r.2)

/-- Result of the upstream `deepgram.speak.v1.audio.generate` call: audio
bytes, or an exception whose `str(e)` is `msg`. -/
inductive UpstreamResult
  | ok (audio : List Nat)
  | err (msg : String)

/-- Python `str.lower()` (ASCII case folding suffices for the messages
involved). -/
def pyLower (s : String) : String := ⟨s.data.map Char.toLower⟩

/-- `not body.text or not body.text.strip()`: true iff the text is empty or
every character is whitespace (Python strips `' '`, `\t`, `\n`, `\r`,
`\x0b`, `\x0c`). -/
def textBlank (s : String) : Bool :=
  s.data.all fun c => c.isWhitespace || c == '\x0b' || c == '\x0c'

/-- The keyword list of the length-error sniffing in `synthesize`. -/
def LENGTH_KEYWORDS : List String := ["too long", "length", "limit", "exceed"]

/-- Python `sub in s` substring containment. -/
def containsSub (s sub : String) : Bool :=
  (List.range (s.data.length + 1)).any fun i => List.isPrefixOf sub.data (s.data.drop i)

/-- `any(keyword in error_msg for keyword in [...])` from `synthesize`. -/
def isLengthError (msg : String) : Bool :=
  LENGTH_KEYWORDS.any fun kw => containsSub msg kw

/-- `str(e)` for a starlette `HTTPException`: `f"{status_code}: {detail}"`. -/
def excStr (status : Nat) (detail : String) : String :=
  toString status ++ ": " ++ detail

/-- The `except Exception` block of `synthesize` followed by the app-level
handler: keyword-sniff the lowercased exception text; on a match raise the
400 `TEXT_TOO_LONG` envelope, otherwise `HTTPException(500, "TTS synthesis
failed")`, whose plain-string detail the handler wraps as
`SynthesisError`/`SYNTHESIS_FAILED`. -/
def catchToError (excText : String) : ApiError :=
  if isLengthError (pyLower excText) then
    ⟨400, "ValidationError", "TEXT_TOO_LONG", "Text exceeds maximum allowed length"⟩
  else
    ⟨500, "SynthesisError", "SYNTHESIS_FAILED", "TTS synthesis failed"⟩

/-- Observable outcome of `POST /api/text-to-speech` after authentication:
the HTTP response (audio bytes plus media type, or an error envelope) and
whether the upstream provider was invoked. -/
structure SynthOutcome where
  response : Except ApiError (List Nat × String)
  upstreamCalled : Bool

/-- `synthesize` endpoint body.  The blank-text branch raises
`HTTPException(400, "Text required")` INSIDE the `try`, so the broad
`except Exception` catches it and re-classifies it through
`str(e) = "400: Text required"`; the upstream call never happens on that
path. -/
def synthesize (text : String) (upstream : UpstreamResult) : SynthOutcome :=
  if textBlank text then
    ⟨.error (catchToError (excStr 400 "Text required")), false⟩
  else
    match upstream with
    | .ok audio => ⟨.ok (audio, "audio/mpeg"), true⟩
    | .err msg => ⟨.error (catchToError msg), true⟩

/-- Claim C1 (code divergence): for empty or whitespace-only text the
upstream provider is never invoked, but the response is NOT the claimed
400 `INVALID_INPUT` validation error: the endpoint's own
`HTTPException(400, "Text required")` is caught by its broad
`except Exception`, whose keyword sniff on `"400: text required"` fails,
so the client receives 500 `SynthesisError`/`SYNTHESIS_FAILED`. -/
theorem blank_text_returns_500_and_skips_upstream :
    synthesize "" (.ok [1, 2, 3]) =
      ⟨.error ⟨500, "SynthesisError", "SYNTHESIS_FAILED", "TTS synthesis failed"⟩, false⟩
    ∧ synthesize " \t\n " (.err "boom") =
      ⟨.error ⟨500, "SynthesisError", "SYNTHESIS_FAILED", "TTS synthesis failed"⟩, false⟩
    ∧ ∀ upstream : UpstreamResult, synthesize "" upstream =
      ⟨.error ⟨500, "SynthesisError", "SYNTHESIS_FAILED", "TTS synthesis failed"⟩, false⟩ :=
  ⟨rfl, rfl, fun _ => rfl⟩

/-- Claim C2, counterexample to the claim as stated: the nonce `"a"` is
returned by `generate` at time 0, yet `consume` never returns true for it:
the first call happens at time 400, after the 300-second TTL, so it
returns false (and removes the nonce), and so does every later call —
there is no call on which `consume` returns true, contradicting
"returns true on exactly one call". -/
theorem consume_nonce_exactly_once_refuted :
    (generate_nonce [] "a" 0).1 = "a"
    ∧ (consume_nonce (generate_nonce [] "a" 0).2 "a" 400).1 = false
    ∧ ∀ t : Nat,
        (consume_nonce (consume_nonce (generate_nonce [] "a" 0).2 "a" 400).2 "a" t).1 = false :=
  ⟨rfl, rfl, fun _ => rfl⟩

/-- Claim C2 (amended): for every nonce `n` returned by `generate`,
`consume(n)` returns true on AT MOST one call — the first, and only when
it occurs strictly before `n`'s expiry; after that first call `n` is gone
from the store, so every subsequent call returns false, including after
expiry; consuming an unknown nonce returns false and leaves the store
unchanged; consuming an expired nonce returns false and still removes it;
and `consume` never touches any other key of the store. -/
theorem consume_nonce_at_most_once (store : NonceStore) (n : String) (t0 t1 t2 : Nat) :
    (consume_nonce (generate_nonce store n t0).2 n t1).1 = decide (t1 < t0 + NONCE_TTL)
    ∧ lookupNonce (consume_nonce (generate_nonce store n t0).2 n t1).2 n = none
    ∧ (∀ s : NonceStore, lookupNonce s n = none → consume_nonce s n t2 = (false, s))
    ∧ (∀ s : NonceStore, ∀ e : Nat, lookupNonce s n = some e → e ≤ t2 →
        consume_nonce s n t2 = (false, eraseNonce s n))
    ∧ (∀ s : NonceStore, ∀ k : String, k ≠ n →
        lookupNonce (consume_nonce s n t2).2 k = lookupNonce s k) := by
  refine ⟨?_, ?_, ?_, ?_, ?_⟩
  · simp [generate_nonce, consume_nonce, lookupNonce]
  · simp [generate_nonce, consume_nonce, lookupNonce, eraseNonce,
      lookupNonce_eraseNonce_self]
  · intro s h
    simp [consume_nonce, h]
  · intro s e h he
    simp [consume_nonce, h, Nat.not_lt.mpr he]
  · intro s k hk
    unfold consume_nonce
    cases hl : lookupNonce s n with
    | none => rfl
    | some e => exact lookupNonce_eraseNonce_ne s n k hk

/-- Witness for `consume_nonce_at_most_once`: consuming the expired nonce
`"a"` (expiry 10, now 50) returns false and still removes it. -/
theorem consume_nonce_at_most_once_witness :
    consume_nonce [("a", 10)] "a" 50 = (false, eraseNonce [("a", 10)] "a") :=
  (consume_nonce_at_most_once [] "a" 0 0 50).2.2.2.1 [("a", 10)] 10 (by decide) (by decide)

/-- A single-symbol alteration of a serialized token: same length, the
symbol at position `i` changed, every other position unchanged. -/
def alteredAt (t u : List Nat) (i : Nat) : Prop :=
  t.length = u.length ∧ i < t.length ∧ t.get? i ≠ u.get? i
    ∧ ∀ j : Nat, j < t.length → j ≠ i → t.get? j = u.get? j

theorem jwt_decode_ok_iff (k : String) (t : List Nat) (now : Nat) :
    jwt_decode k t now = .ok ↔ ∃ i e, t = [i, e, macVal k i e] ∧ now < e := by
  rcases t with _ | ⟨a, _ | ⟨b, _ | ⟨c, _ | ⟨d, rest⟩⟩⟩⟩
  · simp [jwt_decode]
  · simp [jwt_decode]
  · simp [jwt_decode]
  · by_cases hsig : c = macVal k a b
    · subst hsig
      by_cases hexp : b ≤ now
      · simp only [jwt_decode, if_pos rfl, if_pos hexp]
        constructor
        · intro h; simp at h
        · rintro ⟨i, e, heq, hlt⟩
          simp only [List.cons.injEq, and_true] at heq
          rcases heq with ⟨rfl, rfl, -⟩
          omega
      · simp only [jwt_decode, if_pos rfl, if_neg hexp]
        constructor
        · intro _; exact ⟨a, b, rfl, Nat.not_le.mp hexp⟩
        · intro _; rfl
    · simp only [jwt_decode, if_neg hsig]
      constructor
      · intro h; simp at h
      · rintro ⟨i, e, heq, hlt⟩
        simp only [List.cons.injEq, and_true] at heq
        rcases heq with ⟨rfl, rfl, hc⟩
        exact absurd hc hsig
  · simp [jwt_decode]

theorem jwt_decode_expired_iff (k : String) (t : List Nat) (now : Nat) :
    jwt_decode k t now = .expired ↔ ∃ i e, t = [i, e, macVal k i e] ∧ e ≤ now := by
  rcases t with _ | ⟨a, _ | ⟨b, _ | ⟨c, _ | ⟨d, rest⟩⟩⟩⟩
  · simp [jwt_decode]
  · simp [jwt_decode]
  · simp [jwt_decode]
  · by_cases hsig : c = macVal k a b
    · subst hsig
      by_cases hexp : b ≤ now
      · simp only [jwt_decode, if_pos rfl, if_pos hexp]
        constructor
        · intro _; exact ⟨a, b, rfl, hexp⟩
        · intro _; rfl
      · simp only [jwt_decode, if_pos rfl, if_neg hexp]
        constructor
        · intro h; simp at h
        · rintro ⟨i, e, heq, hle⟩
          simp only [List.cons.injEq, and_true] at heq
          rcases heq with ⟨rfl, rfl, -⟩
          omega
    · simp only [jwt_decode, if_neg hsig]
      constructor
      · intro h; simp at h
      · rintro ⟨i, e, heq, hle⟩
        simp only [List.cons.injEq, and_true] at heq
        rcases heq with ⟨rfl, rfl, hc⟩
        exact absurd hc hsig
  · simp [jwt_decode]

theorem jwt_decode_encode_iff (k k2 : String) (n0 n1 : Nat) :
    jwt_decode k2 (jwt_encode k n0) n1 = .ok ↔ (k2 = k ∧ n1 < n0 + JWT_EXPIRY) := by
  rw [jwt_decode_ok_iff]
  constructor
  · rintro ⟨i, e, heq, hlt⟩
    simp only [jwt_encode, List.cons.injEq, and_true] at heq
    rcases heq with ⟨rfl, rfl, hmac⟩
    obtain ⟨hk, -, -⟩ := macVal_inj hmac
    exact ⟨hk.symm, hlt⟩
  · rintro ⟨rfl, hlt⟩
    exact ⟨n0, n0 + JWT_EXPIRY, rfl, hlt⟩

theorem jwt_decode_altered (k : String) (t u : List Nat) (i now : Nat)
    (hok : jwt_decode k t now = .ok) (halt : alteredAt t u i) :
    jwt_decode k u now ≠ .ok := by
  obtain ⟨i0, e0, rfl, hlt⟩ := (jwt_decode_ok_iff k t now).mp hok
  obtain ⟨hlen, hi, hne, hrest⟩ := halt
  obtain ⟨a, b, c, rfl⟩ : ∃ a b c, u = [a, b, c] := by
    rcases u with _ | ⟨a, _ | ⟨b, _ | ⟨c, _ | ⟨d, rest⟩⟩⟩⟩ <;>
      first
        | exact ⟨_, _, _, rfl⟩
        | (exfalso; simp at hlen)
  have hi3 : i < 3 := by simpa using hi
  intro hok2
  obtain ⟨i1, e1, heq, hlt1⟩ := (jwt_decode_ok_iff k _ now).mp hok2
  simp only [List.cons.injEq, and_true] at heq
  rcases heq with ⟨rfl, rfl, rfl⟩
  interval_cases i
  · have hb : e0 = b := Option.some.inj (hrest 1 (by simp) (by omega))
    have hc : macVal k i0 e0 = macVal k a b :=
      Option.some.inj (hrest 2 (by simp) (by omega))
    obtain ⟨-, hii, -⟩ := macVal_inj hc
    exact hne (congrArg some hii)
  · have ha : i0 = a := Option.some.inj (hrest 0 (by simp) (by omega))
    have hc : macVal k i0 e0 = macVal k a b :=
      Option.some.inj (hrest 2 (by simp) (by omega))
    obtain ⟨-, -, hee⟩ := macVal_inj hc
    exact hne (congrArg some hee)
  · have ha : i0 = a := Option.some.inj (hrest 0 (by simp) (by omega))
    have hb : e0 = b := Option.some.inj (hrest 1 (by simp) (by omega))
    subst ha; subst hb
    exact hne rfl

/-- Claim C3: a session token is accepted iff its MAC verifies under the
process-wide secret it was issued with and the current time is strictly
before its expiry instant; and altering any symbol of a valid token makes
validation reject it. -/
theorem session_token_valid_iff (k : String) (t : List Nat) (now : Nat) :
    (jwt_decode k t now = .ok ↔ ∃ i e, t = [i, e, macVal k i e] ∧ now < e)
    ∧ (∀ (k2 : String) (n0 n1 : Nat),
        jwt_decode k2 (jwt_encode k n0) n1 = .ok ↔ (k2 = k ∧ n1 < n0 + JWT_EXPIRY))
    ∧ ∀ (u : List Nat) (i : Nat),
        jwt_decode k t now = .ok → alteredAt t u i → jwt_decode k u now ≠ .ok :=
  ⟨jwt_decode_ok_iff k t now,
    fun k2 n0 n1 => jwt_decode_encode_iff k k2 n0 n1,
    fun u i hok halt => jwt_decode_altered k t u i now hok halt⟩

/-- Witness for `session_token_valid_iff`: the token `[2, 9, mac]` is valid
under secret `"k"` at time 4, and altering its first symbol to 3 makes
validation reject it. -/
theorem session_token_valid_iff_witness :
    jwt_decode "k" [3, 9, macVal "k" 2 9] 4 ≠ .ok :=
  (session_token_valid_iff "k" [2, 9, macVal "k" 2 9] 4).2.2 [3, 9, macVal "k" 2 9] 0
    (by decide) ⟨rfl, by decide, by decide, by decide⟩

/-- Claim C6: `require_session` fails 401 `MISSING_TOKEN` when no bearer
credential is presented, 401 `INVALID_TOKEN` when the token is malformed
or its signature does not verify, and 401 `INVALID_TOKEN` with the
"session expired" message exactly when the signature verifies but the
expiry has passed; and validation never changes the nonce store. -/
theorem require_session_failure_modes (k : String) (now : Nat) (st : NonceStore) :
    (require_session k none now st = (.error missingTokenError, st))
    ∧ (∀ a : List Nat, List.isPrefixOf bearerBytes a = false →
        require_session k (some a) now st = (.error missingTokenError, st))
    ∧ (∀ a : List Nat, List.isPrefixOf bearerBytes a = true →
        jwt_decode k (a.drop 7) now = .invalid →
        require_session k (some a) now st = (.error invalidTokenError, st))
    ∧ (∀ a : List Nat, List.isPrefixOf bearerBytes a = true →
        jwt_decode k (a.drop 7) now = .expired →
        require_session k (some a) now st = (.error expiredTokenError, st))
    ∧ (∀ t : List Nat, jwt_decode k t now = .expired ↔
        ∃ i e, t = [i, e, macVal k i e] ∧ e ≤ now)
    ∧ missingTokenError = ⟨401, "AuthenticationError", "MISSING_TOKEN",
        "Authorization header with Bearer token is required"⟩
    ∧ invalidTokenError = ⟨401, "AuthenticationError", "INVALID_TOKEN",
        "Invalid session token"⟩
    ∧ expiredTokenError = ⟨401, "AuthenticationError", "INVALID_TOKEN",
        "Session expired, please refresh the page"⟩
    ∧ ∀ auth : Option (List Nat), (require_session k auth now st).2 = st := by
  refine ⟨rfl, ?_, ?_, ?_, fun t => jwt_decode_expired_iff k t now, rfl, rfl, rfl, ?_⟩
  · intro a hpre
    simp [require_session, hpre]
  · intro a hpre hdec
    have hne : a.isEmpty = false := by
      cases a with
      | nil => simp [bearerBytes] at hpre
      | cons x xs => rfl
    simp [require_session, hpre, hne, hdec]
  · intro a hpre hdec
    have hne : a.isEmpty = false := by
      cases a with
      | nil => simp [bearerBytes] at hpre
      | cons x xs => rfl
    simp [require_session, hpre, hne, hdec]
  · intro auth
    cases auth with
    | none => rfl
    | some a =>
      unfold require_session
      by_cases hc : (a.isEmpty || !(List.isPrefixOf bearerBytes a)) = true
      · simp [hc]
      · simp only [Bool.not_eq_true] at hc
        simp only [hc]
        cases jwt_decode k (a.drop 7) now <;> rfl

/-- Witness for `require_session_failure_modes`: a bearer token whose
signature symbol is wrong yields the 401 `INVALID_TOKEN` envelope. -/
theorem require_session_failure_modes_witness :
    require_session "k" (some (bearerBytes ++ [0, 1, 999])) 5 [] =
      (.error invalidTokenError, []) :=
  (require_session_failure_modes "k" 5 []).2.2.1 (bearerBytes ++ [0, 1, 999])
    (by decide) (by decide)

/-- Claim C9: an `Authorization` header that is present but does not start
with the exact prefix `"Bearer "` (e.g. a Basic credential) is rejected
with the 401 `MISSING_TOKEN` envelope, not `INVALID_TOKEN`. -/
theorem non_bearer_header_is_missing_token (k : String) (now : Nat)
    (st : NonceStore) (a : List Nat) (h : List.isPrefixOf bearerBytes a = false) :
    require_session k (some a) now st = (.error missingTokenError, st)
    ∧ missingTokenError.code = "MISSING_TOKEN"
    ∧ missingTokenError.code ≠ invalidTokenError.code := by
  refine ⟨?_, rfl, by decide⟩
  simp [require_session, h]

/-- Witness for `non_bearer_header_is_missing_token`: the header
`"Basic xyz"`. -/
theorem non_bearer_header_is_missing_token_witness :
    require_session "k" (some ("Basic xyz".data.map Char.toNat)) 5 [] =
      (.error missingTokenError, [])
    ∧ missingTokenError.code = "MISSING_TOKEN"
    ∧ missingTokenError.code ≠ invalidTokenError.code :=
  non_bearer_header_is_missing_token "k" 5 [] ("Basic xyz".data.map Char.toNat)
    (by decide)

/-- Claim C4: when nonce-gating is required, a missing, empty or
non-consumable `X-Session-Nonce` makes `get_session` fail with the 403
`AuthenticationError`/`INVALID_NONCE` envelope and never return a token. -/
theorem nonce_gated_issue_fails_without_valid_nonce (k : String) (now : Nat)
    (st : NonceStore) :
    (get_session true k none now st = (.error invalidNonceError, st))
    ∧ (get_session true k (some "") now st = (.error invalidNonceError, st))
    ∧ (∀ s : String, s ≠ "" → (consume_nonce st s now).1 = false →
        get_session true k (some s) now st =
          (.error invalidNonceError, (consume_nonce st s now).2))
    ∧ invalidNonceError = ⟨403, "AuthenticationError", "INVALID_NONCE",
        "Valid session nonce required. Please refresh the page."⟩ := by
  refine ⟨rfl, rfl, ?_, rfl⟩
  intro s hs hc
  simp [get_session, hs, hc]

/-- Witness for `nonce_gated_issue_fails_without_valid_nonce`: the unknown
nonce `"x"` against an empty store. -/
theorem nonce_gated_issue_fails_without_valid_nonce_witness :
    get_session true "k" (some "x") 0 [] =
      (.error invalidNonceError, (consume_nonce [] "x" 0).2) :=
  (nonce_gated_issue_fails_without_valid_nonce "k" 0 []).2.2.1 "x" (by decide) (by decide)

/-- Claim C5: when nonce-gating is bypassed (the secret was locally
generated because no external secret was configured), `get_session`
succeeds unconditionally and returns a signed token with
issued-at `now` and expiry `now + 3600`. -/
theorem bypassed_issue_always_succeeds (k : String) (nonceHdr : Option String)
    (now : Nat) (st : NonceStore) :
    get_session (require_nonce_of none) k nonceHdr now st = (.ok (jwt_encode k now), st)
    ∧ jwt_encode k now = [now, now + 3600, macVal k now (now + 3600)] :=
  ⟨rfl, rfl⟩

/-- Claim C10: setting `SESSION_SECRET` to the empty string behaves exactly
as if the variable were unset: the random startup secret is used,
nonce-gating is bypassed, and issuance succeeds unconditionally. -/
theorem empty_secret_env_behaves_as_unset (r k : String) (nonceHdr : Option String)
    (now : Nat) (st : NonceStore) :
    session_secret_of (some "") r = session_secret_of none r
    ∧ session_secret_of (some "") r = r
    ∧ require_nonce_of (some "") = require_nonce_of none
    ∧ require_nonce_of (some "") = false
    ∧ get_session (require_nonce_of (some "")) k nonceHdr now st =
        (.ok (jwt_encode k now), st) :=
  ⟨rfl, rfl, rfl, rfl, rfl⟩

/-- Claim C7: at the synthesis boundary, an upstream exception whose text
matches the length-violation keywords is mapped to 400 `TEXT_TOO_LONG`;
every other upstream exception is mapped to 500
`SynthesisError`/`SYNTHESIS_FAILED`; and in either case the response is
independent of the exception text beyond its classification (nothing is
leaked to the client). -/
theorem upstream_error_mapping (text msg : String) (htext : textBlank text = false) :
    (isLengthError (pyLower msg) = true →
      synthesize text (.err msg) =
        ⟨.error ⟨400, "ValidationError", "TEXT_TOO_LONG",
          "Text exceeds maximum allowed length"⟩, true⟩)
    ∧ (isLengthError (pyLower msg) = false →
      synthesize text (.err msg) =
        ⟨.error ⟨500, "SynthesisError", "SYNTHESIS_FAILED",
          "TTS synthesis failed"⟩, true⟩)
    ∧ ∀ msg2 : String, isLengthError (pyLower msg) = isLengthError (pyLower msg2) →
        synthesize text (.err msg) = synthesize text (.err msg2) := by
  refine ⟨?_, ?_, ?_⟩
  · intro h
    simp [synthesize, htext, catchToError, h]
  · intro h
    simp [synthesize, htext, catchToError, h]
  · intro msg2 h
    simp [synthesize, htext, catchToError, h]

/-- Witness for `upstream_error_mapping`: a length-violation exception on
non-blank text yields the 400 `TEXT_TOO_LONG` envelope. -/
theorem upstream_error_mapping_witness :
    synthesize "hi" (.err "Text is too long for this model") =
      ⟨.error ⟨400, "ValidationError", "TEXT_TOO_LONG",
        "Text exceeds maximum allowed length"⟩, true⟩ :=
  (upstream_error_mapping "hi" "Text is too long for this model" (by decide)).1 (by decide)

/-- Claim C8: `generate` records the fresh nonce with expiry
`now + NONCE_TTL` (5 minutes) and returns it, touching no other key;
`cleanup` keeps exactly the entries whose expiry has not yet passed; and
every successful serving of the entry page runs `cleanup` then `generate`
on the store. -/
theorem nonce_generation_and_cleanup (store : NonceStore) (n : String) (t : Nat) :
    (generate_nonce store n t).1 = n
    ∧ lookupNonce (generate_nonce store n t).2 n = some (t + NONCE_TTL)
    ∧ NONCE_TTL = 5 * 60
    ∧ (∀ kv : String × Nat, kv ∈ cleanup_nonces store t ↔ (kv ∈ store ∧ t < kv.2))
    ∧ (∀ k2 : String, k2 ≠ n →
        lookupNonce (generate_nonce store n t).2 k2 = lookupNonce store k2)
    ∧ ∀ template : String, template ≠ "" →
        serve_index (some template) n t store =
          .ok (injectNonce template n, (generate_nonce (cleanup_nonces store t) n t).2) := by
  refine ⟨rfl, ?_, rfl, ?_, ?_, ?_⟩
  · simp [generate_nonce, lookupNonce]
  · intro kv
    simp [cleanup_nonces, List.mem_filter]
  · intro k2 hk
    simp [generate_nonce, lookupNonce, show ¬(n = k2) from fun h => hk h.symm,
      lookupNonce_eraseNonce_ne store n k2 hk]
  · intro template ht
    simp only [serve_index, if_neg ht]
    rfl

/-- Witness for `nonce_generation_and_cleanup`: serving a concrete page over
a store holding one stale nonce. -/
theorem nonce_generation_and_cleanup_witness :
    serve_index (some "<head></head>") "n0" 10 [("old", 3)] =
      .ok (injectNonce "<head></head>" "n0",
        (generate_nonce (cleanup_nonces [("old", 3)] 10) "n0" 10).2) :=
  (nonce_generation_and_cleanup [("old", 3)] "n0" 10).2.2.2.2.2 "<head></head>" (by decide)
